import Mathlib

/-!
Verification development for the generation scheduler of the `chara` grid
application. The definitions below are a shallow embedding of the code in
`src/constants.ts` and `src/types.ts` (the grid model, the coordinate mapper,
the prompt builder, the queue processor and the control-surface handlers).
JavaScript objects keyed by cell id are embedded as functions
`String → Option CellData`; the asynchronous drain loop is split into its
atomic state transitions; collaborator calls are oracles passed as functions
returning `Except`.
-/

namespace Chara

/-! ## Constants (from src/constants.ts) -/

/-- Number of text description levels defined in the axis data. -/
def SOURCE_LEVELS : Nat := 5

structure AxisDefinition where
  name : String
  description : String
  levels : List String
deriving DecidableEq

/-- Identity Stylization axis data. -/
def X_AXIS : AxisDefinition :=
  { name := "Identity Stylization (X)"
    description := "From Everyday Reality to Fictional/Iconic Archetypes"
    levels :=
      [ "Documentary photography style, ordinary everyday person, candid shot, unpolished, realistic skin texture, neutral lighting, \"person next door\" vibe"
      , "Professional portrait, specific occupation uniform (e.g., doctor, office worker), neat and tidy, socially compliant appearance, realistic but groomed"
      , "Costumed performer, cosplay photography, theatrical makeup, distinct character outfit but clearly a human actor, stage lighting"
      , "Highly stylized 3D character render, Pixar/Disney style, exaggerated facial features, expressive shape language, distinct silhouette"
      , "Mythological or Superhero icon, larger-than-life presence, glowing aura, supernatural atmosphere, cultural symbol (e.g., Sun Wukong, Captain America), cinematic concept art" ] }

/-- Energy Presence and Expression axis data. -/
def Y_AXIS : AxisDefinition :=
  { name := "Energy Presence & Expression (Y)"
    description := "From Subdued/Passive to Intense/Powerful (expressed through facial expression and body tension only)"
    levels :=
      [ "Subdued demeanor, shy expression, avoiding eye contact, soft withdrawn look, minimal muscle tension, relaxed body, timid posture"
      , "Calm demeanor, gentle neutral expression, soft gaze, low muscle tone, peaceful face, relaxed shoulders, quiet presence"
      , "Confident demeanor, alert expression, direct eye contact, controlled muscle tone, attentive face, balanced posture, strong presence"
      , "Strong demeanor, intense facial expression, piercing determined gaze, visible muscle tension throughout body, focused eyes, taut posture, commanding presence"
      , "Overwhelming demeanor, explosive facial expression, fierce penetrating eyes, maximum muscle definition and tension, clenched jaw, bulging veins, taut neck muscles, extreme intensity in still form" ] }

/-- Embodiment Constraints axis data. -/
def Z_AXIS : AxisDefinition :=
  { name := "Embodiment Constraints (Z)"
    description := "From Standard Body to Modified Morphology & Tool Extension"
    levels :=
      [ "Standard athletic body type, simple tight-fitting clothing (t-shirt and jeans), no accessories, free range of motion, empty hands"
      , "Casual street wear, holding a small everyday object (smartphone, coffee cup, book), slight asymmetry in pose"
      , "Elderly body structure with a cane, or heavy distinct body mass (obese or bulky muscle), limited flexibility, visible weight distribution struggle"
      , "Restrictive clothing, long flowing Victorian dress (Cinderella style) or heavy tactical gear, voluminous fabric interacting with the environment"
      , "Holding large signature weapon (Shield, Golden Staff, Sword), magical effects extending from limbs, cyborg attachments, or non-human appendages (wings/tails)" ] }

/-- Default base subject; empty, so the AI generates a character from the axes. -/
def DEFAULT_SUBJECT : String := ""

/-- Fixed text appended to every generation request. -/
def PROMPT_SUFFIX : String :=
  "\nFull body shot showing the complete character from head to toe.\nStanding upright in a neutral pose (arms relaxed at sides if applicable).\nFront view, eye-level perspective, facing directly forward.\nIsolated on pure white background, no props, no shadows.\nNeutral, even lighting with no dramatic shadows.\n"

/-! ## Data model (from src/types.ts) -/

inductive Status where
  | idle
  | queued
  | loading
  | success
  | error
deriving DecidableEq

structure Coordinate where
  x : Nat
  y : Nat
  z : Nat
deriving DecidableEq

/-- One grid cell. The source stores the id redundantly inside the cell; here
the id is the key under which the cell is stored. `coord` and `prompt` are
optional because the unguarded success/error write-backs can create an entry
by object spread of `undefined`, which leaves those fields absent. -/
structure CellData where
  coord : Option Coordinate
  imageUrl : Option String
  prompt : Option String
  characterDescription : Option String
  status : Status
deriving DecidableEq

/-- The grid record, a JavaScript object keyed by cell id. -/
abbrev GridMatrix := String → Option CellData

structure AxisConfig where
  x : Nat
  y : Nat
  z : Nat
deriving DecidableEq

/-- Full application state relevant to the scheduler: the grid, the pending
queue and the single-flight processing flag. -/
structure AppState where
  gridData : GridMatrix
  queue : List String
  processing : Bool

/-! ## Coordinate mapper -/

/-- JavaScript Math.round on an exact rational: floor of q + 1/2 (ties round
up, as Math.round does). -/
def jsRound (q : ℚ) : ℤ := ⌊q + 1 / 2⌋

/-- The source coordinate mapper: `if (totalSteps <= 1) return 0;
return Math.round(index * (SOURCE_LEVELS - 1) / (totalSteps - 1));`. -/
def mapIndexToDataLevel (index totalSteps : Nat) : ℤ :=
  if totalSteps ≤ 1 then 0
  else jsRound ((index : ℚ) * ((SOURCE_LEVELS : ℚ) - 1) / ((totalSteps : ℚ) - 1))

/-- The same mapper with the level count as a parameter, as the spec states
its contract; the source fixes `levelCount := SOURCE_LEVELS`. -/
def mapIndexToLevel (index totalSteps levelCount : Nat) : ℤ :=
  if totalSteps ≤ 1 then 0
  else jsRound ((index : ℚ) * ((levelCount : ℚ) - 1) / ((totalSteps : ℚ) - 1))

/-- Round-to-nearest linear rescale of `index` from `[0, totalSteps-1]` onto
`[0, levelCount-1]`, written in integer arithmetic: round(a/b) = (2a+b)/(2b)
with ties up. Modelled from the spec wording of the mapper contract. -/
def roundNearestRescale (index totalSteps levelCount : Nat) : Nat :=
  (2 * (index * (levelCount - 1)) + (totalSteps - 1)) / (2 * (totalSteps - 1))

/-- Executable form of the source mapper, used where the code indexes the
axis level arrays; `mapLevelIdx_eq` proves it agrees with
`mapIndexToDataLevel`. -/
def mapLevelIdx (index totalSteps : Nat) : Nat :=
  if totalSteps ≤ 1 then 0 else roundNearestRescale index totalSteps SOURCE_LEVELS

/-! ## Grid model -/

/-- Cell identity key, the string `x-y-z`. -/
def cellId (x y z : Nat) : String :=
  toString x ++ "-" ++ toString y ++ "-" ++ toString z

/-- A freshly built cell: idle, empty prompt, no image. -/
def initCellData (x y z : Nat) : CellData :=
  { coord := some ⟨x, y, z⟩
    imageUrl := none
    prompt := some ""
    characterDescription := none
    status := Status.idle }

/-- The grid rebuild enumeration: the source's triple loop (z outer, y middle,
x inner) inserting one idle cell per coordinate into the record. -/
def initialCells (cfg : AxisConfig) : List (String × CellData) :=
  (List.range cfg.z).flatMap fun z =>
    (List.range cfg.y).flatMap fun y =>
      (List.range cfg.x).map fun x =>
        (cellId x y z, initCellData x y z)

/-- The rebuilt grid record. -/
def initialGrid (cfg : AxisConfig) : GridMatrix :=
  fun k => (initialCells cfg).lookup k

/-- State after an axis-configuration change: queue cleared, processing flag
cleared, grid rebuilt. -/
def initialState (cfg : AxisConfig) : AppState :=
  { gridData := initialGrid cfg, queue := [], processing := false }

/-! ## Prompt builder -/

/-- Model of JavaScript String.prototype.trim. -/
def jsTrim (s : String) : String :=
  String.mk (((s.data.dropWhile Char.isWhitespace).reverse.dropWhile
    Char.isWhitespace).reverse)

/-- Condition under which a character description is synthesized:
`!subject.trim() || subject === DEFAULT_SUBJECT`. -/
def shouldSynthesize (subject : String) : Bool :=
  jsTrim subject == "" || subject == DEFAULT_SUBJECT

/-- The prompt builder `getPromptForCell`. When `includeAxisDetails` is
false the three axis level descriptors are not interpolated. -/
def getPromptForCell (cfg : AxisConfig) (coord : Coordinate) (subj : String)
    (includeAxisDetails : Bool) : String :=
  let xLevel := mapLevelIdx coord.x cfg.x
  let yLevel := mapLevelIdx coord.y cfg.y
  let zLevel := mapLevelIdx coord.z cfg.z
  if includeAxisDetails then
    subj ++ ". \n    Style: " ++ X_AXIS.levels.getD xLevel "" ++
      ". \n    Pose/Energy: " ++ Y_AXIS.levels.getD yLevel "" ++
      ". \n    Physical details: " ++ Z_AXIS.levels.getD zLevel "" ++
      ". \n    " ++ PROMPT_SUFFIX
  else
    subj ++ ". " ++ PROMPT_SUFFIX

/-! ## Error model -/

/-- The data of a caught JavaScript error as the handler reads it:
`JSON.stringify(error)`, the optional `status` field and the optional
`message` field. For an Error instance the non-enumerable `message` is not
part of `JSON.stringify(error)`, so the three are independent. -/
structure JsError where
  serialized : String
  status : Option Int
  message : Option String
deriving DecidableEq

/-- Character-list substring test, the semantics of String.prototype.includes:
`startsWithSeq p l` holds when `p` is a prefix of `l`. -/
def startsWithSeq : List Char → List Char → Bool
  | [], _ => true
  | _ :: _, [] => false
  | a :: p, b :: l => a == b && startsWithSeq p l

/-- Whether `pat` occurs contiguously inside `l`. -/
def occursInSeq (pat : List Char) : List Char → Bool
  | [] => pat.isEmpty
  | b :: t => startsWithSeq pat (b :: t) || occursInSeq pat t

/-- Model of `s.includes(pat)`. -/
def jsIncludes (s pat : String) : Bool := occursInSeq pat.data s.data

/-- Substring as a proposition. -/
def IsSubstring (part s : String) : Prop := ∃ l r, s = l ++ part ++ r

/-- The rate-limit classifier:
`JSON.stringify(error).includes('429') || error.status === 429 ||
error?.message?.includes('429')`. -/
def isRateLimit (e : JsError) : Bool :=
  jsIncludes e.serialized "429" || e.status == some 429 ||
    (match e.message with
     | some m => jsIncludes m "429"
     | none => false)

/-! ## Scheduler: one cell's generation attempt -/

inductive AttemptResult where
  | ok (imageUrl promptText characterDesc : String) (usedGeneratedCharacter : Bool)
  | failed (e : JsError)
deriving DecidableEq

/-- The body of the drain loop for one cell (the try block of processQueue):
optionally synthesize a character description from the three mapped axis
level descriptors, build the final prompt, call the image collaborator.
Collaborator outcomes are supplied as oracle functions. -/
def runAttempt (cfg : AxisConfig) (subject : String) (coord : Coordinate)
    (charGen : String → String → String → Except JsError String)
    (imageGen : String → Except JsError String) : AttemptResult :=
  let xLevel := mapLevelIdx coord.x cfg.x
  let yLevel := mapLevelIdx coord.y cfg.y
  let zLevel := mapLevelIdx coord.z cfg.z
  if shouldSynthesize subject then
    match charGen (X_AXIS.levels.getD xLevel "") (Y_AXIS.levels.getD yLevel "")
        (Z_AXIS.levels.getD zLevel "") with
    | Except.error e => AttemptResult.failed e
    | Except.ok characterDesc =>
      match imageGen (getPromptForCell cfg coord characterDesc false) with
      | Except.error e => AttemptResult.failed e
      | Except.ok img =>
        AttemptResult.ok img (getPromptForCell cfg coord characterDesc false)
          characterDesc true
  else
    match imageGen (getPromptForCell cfg coord subject true) with
    | Except.error e => AttemptResult.failed e
    | Except.ok img =>
      AttemptResult.ok img (getPromptForCell cfg coord subject true) subject false

/-! ## Grid mutations of the scheduler and control surface -/

/-- Update the one entry at key `id`, if present. -/
def updateCell (g : GridMatrix) (id : String) (f : CellData → CellData) :
    GridMatrix :=
  fun k => if k = id then (g id).map f else g k

/-- The status mark applied by enqueue: skip cells that are currently
success or loading, otherwise mark queued. -/
def markQueuedCell (c : CellData) : CellData :=
  if c.status = Status.success ∨ c.status = Status.loading then c
  else { c with status := Status.queued }

/-- First-occurrence de-duplication, the semantics of
`Array.from(new Set(list))`. -/
def jsSetDedupGo (seen : List String) : List String → List String
  | [] => []
  | a :: l => if a ∈ seen then jsSetDedupGo seen l
              else a :: jsSetDedupGo (a :: seen) l

/-- De-duplicate keeping first occurrences. -/
def jsSetDedup (l : List String) : List String := jsSetDedupGo [] l

/-- The control-surface enqueue `addToQueue`: de-duplicate the queue extended
with the new ids, and mark each added id queued unless its cell is success
or loading. -/
def addToQueue (ids : List String) (s : AppState) : AppState :=
  { s with
    queue := jsSetDedup (s.queue ++ ids)
    gridData := ids.foldl (fun g id => updateCell g id markQueuedCell) s.gridData }

/-- The status mark applied when dequeuing. -/
def markLoadingCell (c : CellData) : CellData := { c with status := Status.loading }

/-- Entry of the drain loop: set the processing flag, take a batch of one id
off the queue and mark the corresponding cell loading. -/
def dequeueMarkLoading (s : AppState) : AppState :=
  { gridData :=
      (s.queue.take 1).foldl (fun g id => updateCell g id markLoadingCell) s.gridData
    queue := s.queue.drop 1
    processing := true }

/-- The success write-back
`{...prev, [id]: {...prev[id], imageUrl, prompt, characterDescription,
status: 'success'}}`. The write is unconditional: when the id is absent
the spread of `undefined` creates an entry with only the assigned fields. -/
def writeSuccess (id imageUrl promptText characterDesc : String)
    (g : GridMatrix) : GridMatrix :=
  fun k =>
    if k = id then
      some (match g id with
        | some c =>
          { c with
            imageUrl := some imageUrl
            prompt := some promptText
            characterDescription := some characterDesc
            status := Status.success }
        | none =>
          { coord := none
            imageUrl := some imageUrl
            prompt := some promptText
            characterDescription := some characterDesc
            status := Status.success })
    else g k

/-- The error write-back `{...prev, [id]: {...prev[id], status: 'error'}}`,
likewise unconditional. -/
def writeError (id : String) (g : GridMatrix) : GridMatrix :=
  fun k =>
    if k = id then
      some (match g id with
        | some c => { c with status := Status.error }
        | none =>
          { coord := none
            imageUrl := none
            prompt := none
            characterDescription := none
            status := Status.error })
    else g k

/-- End of one drain-loop run: clear the processing flag. -/
def finishProcessing (s : AppState) : AppState := { s with processing := false }

/-- The control-surface stop: clear the queue and revert every queued cell
to idle, touching nothing else. -/
def handleStop (s : AppState) : AppState :=
  { s with
    queue := []
    gridData := fun k =>
      (s.gridData k).map fun c =>
        if c.status = Status.queued then { c with status := Status.idle } else c }

/-- The control-surface reset: clear the queue and the processing flag, set
every cell's status to idle and its imageUrl to undefined. The stored prompt
and character description are not touched by the source. -/
def handleReset (s : AppState) : AppState :=
  { gridData := fun k =>
      (s.gridData k).map fun c => { c with status := Status.idle, imageUrl := none }
    queue := []
    processing := false }

/-- One full iteration of the drain loop body for a dequeued id: look the
cell up (skipping a missing id), run the attempt, apply the matching
write-back and report the delay that follows (4000 ms after success,
30000 ms after a rate-limited failure, 1000 ms after any other failure).
Failures are data here, so the step is total: no failure escapes the loop. -/
def processBatchCell (cfg : AxisConfig) (subject : String)
    (charGen : String → String → String → Except JsError String)
    (imageGen : String → Except JsError String)
    (s : AppState) (id : String) : AppState × Nat :=
  match s.gridData id with
  | none => (s, 0)
  | some c =>
    match c.coord with
    | none => (s, 0)
    | some coord =>
      match runAttempt cfg subject coord charGen imageGen with
      | AttemptResult.ok imageUrl promptText characterDesc _ =>
        ({ s with gridData := writeSuccess id imageUrl promptText characterDesc s.gridData },
         4000)
      | AttemptResult.failed e =>
        ({ s with gridData := writeError id s.gridData },
         if isRateLimit e then 30000 else 1000)

/-! ## Reachability -/

/-- The atomic state transitions of the scheduler and control surface.
Write-backs are allowed at any id, a superset of the real traces in which
they target the dequeued id; all transitions below are exercised by the
actual program. -/
inductive Step : AppState → AppState → Prop where
  | rebuild (s : AppState) (cfg : AxisConfig) : Step s (initialState cfg)
  | enqueue (s : AppState) (ids : List String) : Step s (addToQueue ids s)
  | dequeue (s : AppState) (hp : s.processing = false) (hq : s.queue ≠ []) :
      Step s (dequeueMarkLoading s)
  | success (s : AppState) (id imageUrl promptText characterDesc : String) :
      Step s { s with gridData := writeSuccess id imageUrl promptText characterDesc s.gridData }
  | failure (s : AppState) (id : String) :
      Step s { s with gridData := writeError id s.gridData }
  | finish (s : AppState) : Step s (finishProcessing s)
  | stop (s : AppState) : Step s (handleStop s)
  | reset (s : AppState) : Step s (handleReset s)

/-- States reachable from some fresh configuration rebuild. -/
inductive Reachable : AppState → Prop where
  | init (cfg : AxisConfig) : Reachable (initialState cfg)
  | step {s s' : AppState} : Reachable s → Step s s' → Reachable s'

/-- Invariant: every cell whose status is queued has its key in the queue. -/
def QueuedInQueue (s : AppState) : Prop :=
  ∀ id c, s.gridData id = some c → c.status = Status.queued → id ∈ s.queue

/-! ## Concrete states used by counterexamples and witnesses -/

/-- A 2x2x2 fresh state. -/
def freshState : AppState := initialState ⟨2, 2, 2⟩

/-- Trace for the C1 counterexample, after the first generation of cell
0-0-0 succeeded and the drain loop went idle. -/
def c1StateAfterSuccess : AppState :=
  let s2 := dequeueMarkLoading (addToQueue [cellId 0 0 0] freshState)
  finishProcessing
    { s2 with gridData := writeSuccess (cellId 0 0 0) "data:img" "p" "d" s2.gridData }

/-- Re-enqueueing the already successful cell: its id enters the queue while
its status stays success. -/
def c1State : AppState := addToQueue [cellId 0 0 0] c1StateAfterSuccess

/-- State with one stored result, used by the C3 counterexample. -/
def c3State : AppState :=
  { freshState with
    gridData := writeSuccess (cellId 0 0 0) "img" "A stored prompt" "d" freshState.gridData }

/-- State with cell 0-0-0 loading and cell 1-0-0 queued, used by the C9 and
C10 witnesses. -/
def c9State : AppState :=
  dequeueMarkLoading (addToQueue [cellId 0 0 0, cellId 1 0 0] freshState)

/-- A rate-limit failure whose JSON serialization is the empty object, as
JSON.stringify produces for an Error instance. -/
def rateLimitMessageError : JsError :=
  { serialized := "\x7b\x7d", status := none, message := some "429 RESOURCE_EXHAUSTED" }

/-- A descriptor collaborator that always fails with the rate-limit error. -/
def failCharGen : String → String → String → Except JsError String :=
  fun _ _ _ => Except.error rateLimitMessageError

/-- An artifact collaborator that always fails with the rate-limit error. -/
def failImageGen : String → Except JsError String :=
  fun _ => Except.error rateLimitMessageError

/-- An artifact collaborator that always succeeds with a fixed data URI. -/
def okImageGen : String → Except JsError String :=
  fun _ => Except.ok "data:image/png;base64,AAA"

/-! ## Support lemmas: queue de-duplication -/

theorem mem_jsSetDedupGo (a : String) :
    ∀ (l seen : List String), a ∈ jsSetDedupGo seen l ↔ a ∈ l ∧ a ∉ seen := by
  intro l
  induction l with
  | nil => intro seen; simp [jsSetDedupGo]
  | cons b t ih =>
    intro seen
    rw [jsSetDedupGo]
    by_cases hb : b ∈ seen
    · rw [if_pos hb, ih]
      constructor
      · rintro ⟨ht, hs⟩
        exact ⟨List.mem_cons_of_mem _ ht, hs⟩
      · rintro ⟨hbt, hs⟩
        rcases List.mem_cons.mp hbt with rfl | ht
        · exact absurd hb hs
        · exact ⟨ht, hs⟩
    · rw [if_neg hb]
      by_cases hab : a = b
      · subst hab
        constructor
        · intro _
          exact ⟨List.mem_cons_self _ _, hb⟩
        · intro _
          exact List.mem_cons_self _ _
      · constructor
        · intro h
          rcases List.mem_cons.mp h with h' | h'
          · exact absurd h' hab
          · rcases (ih (b :: seen)).mp h' with ⟨ht, hs⟩
            exact ⟨List.mem_cons_of_mem _ ht, fun hx => hs (List.mem_cons_of_mem _ hx)⟩
        · rintro ⟨hbt, hs⟩
          rcases List.mem_cons.mp hbt with rfl | ht
          · exact absurd rfl hab
          · refine List.mem_cons_of_mem _ ((ih (b :: seen)).mpr ⟨ht, fun hx => ?_⟩)
            rcases List.mem_cons.mp hx with rfl | h'
            · exact hab rfl
            · exact hs h'

theorem mem_jsSetDedup (a : String) (l : List String) :
    a ∈ jsSetDedup l ↔ a ∈ l := by
  rw [jsSetDedup, mem_jsSetDedupGo]
  simp

/-! ## Support lemmas: pointwise view of the grid mutations -/

theorem updateCell_apply (g : GridMatrix) (id k : String) (f : CellData → CellData) :
    updateCell g id f k = if k = id then (g k).map f else g k := by
  rw [updateCell]
  by_cases h : k = id
  · subst h; simp
  · simp [h]

theorem foldl_updateCell_apply (f : CellData → CellData)
    (hf : ∀ c, f (f c) = f c) :
    ∀ (ids : List String) (g : GridMatrix) (k : String),
      (ids.foldl (fun g' id => updateCell g' id f) g) k =
        if k ∈ ids then (g k).map f else g k := by
  intro ids
  induction ids with
  | nil => intro g k; simp
  | cons a t ih =>
    intro g k
    rw [List.foldl_cons, ih]
    by_cases hk : k ∈ t
    · rw [if_pos hk, if_pos (List.mem_cons_of_mem _ hk), updateCell_apply]
      by_cases hka : k = a
      · rw [if_pos hka, Option.map_map]
        exact congrArg (fun h => Option.map h (g k)) (funext fun c => hf c)
      · rw [if_neg hka]
    · rw [if_neg hk, updateCell_apply]
      by_cases hka : k = a
      · rw [if_pos hka, if_pos (hka ▸ List.mem_cons_self a t)]
      · rw [if_neg hka, if_neg (by simp [List.mem_cons, hka, hk])]

theorem markQueuedCell_idem (c : CellData) :
    markQueuedCell (markQueuedCell c) = markQueuedCell c := by
  rw [markQueuedCell, markQueuedCell]
  by_cases h : c.status = Status.success ∨ c.status = Status.loading
  · rw [if_pos h, if_pos h]
  · rw [if_neg h]
    simp [markQueuedCell]

theorem markLoadingCell_idem (c : CellData) :
    markLoadingCell (markLoadingCell c) = markLoadingCell c := rfl

theorem addToQueue_gridData (ids : List String) (s : AppState) (k : String) :
    (addToQueue ids s).gridData k =
      if k ∈ ids then (s.gridData k).map markQueuedCell else s.gridData k :=
  foldl_updateCell_apply markQueuedCell markQueuedCell_idem ids s.gridData k

theorem addToQueue_queue (ids : List String) (s : AppState) (k : String) :
    k ∈ (addToQueue ids s).queue ↔ k ∈ s.queue ∨ k ∈ ids := by
  show k ∈ jsSetDedup (s.queue ++ ids) ↔ _
  rw [mem_jsSetDedup, List.mem_append]

theorem dequeueMarkLoading_gridData (s : AppState) (k : String) :
    (dequeueMarkLoading s).gridData k =
      if k ∈ s.queue.take 1 then (s.gridData k).map markLoadingCell else s.gridData k :=
  foldl_updateCell_apply markLoadingCell markLoadingCell_idem (s.queue.take 1) s.gridData k

theorem handleStop_gridData (s : AppState) (k : String) :
    (handleStop s).gridData k =
      (s.gridData k).map fun c =>
        if c.status = Status.queued then { c with status := Status.idle } else c := rfl

theorem handleReset_gridData (s : AppState) (k : String) :
    (handleReset s).gridData k =
      (s.gridData k).map fun c => { c with status := Status.idle, imageUrl := none } := rfl

theorem writeSuccess_apply_ne (id imageUrl promptText characterDesc k : String)
    (g : GridMatrix) (h : k ≠ id) :
    writeSuccess id imageUrl promptText characterDesc g k = g k := by
  rw [writeSuccess]; simp [h]

theorem writeError_apply_ne (id k : String) (g : GridMatrix) (h : k ≠ id) :
    writeError id g k = g k := by
  rw [writeError]; simp [h]

theorem writeSuccess_apply_self (id imageUrl promptText characterDesc : String)
    (g : GridMatrix) (c : CellData) (h : g id = some c) :
    writeSuccess id imageUrl promptText characterDesc g id =
      some { c with
        imageUrl := some imageUrl
        prompt := some promptText
        characterDescription := some characterDesc
        status := Status.success } := by
  rw [writeSuccess]; simp [h]

theorem writeError_apply_self (id : String) (g : GridMatrix) (c : CellData)
    (h : g id = some c) :
    writeError id g id = some { c with status := Status.error } := by
  rw [writeError]; simp [h]

/-! ## Support lemmas: the rebuilt grid -/

theorem lookup_prop {α β : Type} [BEq α] (P : β → Prop) :
    ∀ (l : List (α × β)), (∀ p ∈ l, P p.2) →
      ∀ k v, List.lookup k l = some v → P v := by
  intro l
  induction l with
  | nil => intro _ k v h; simp [List.lookup] at h
  | cons p t ih =>
    obtain ⟨k1, v1⟩ := p
    intro hall k v h
    rw [List.lookup_cons] at h
    cases hk : (k == k1) with
    | true =>
      simp only [hk] at h
      exact Option.some.inj h ▸ hall (k1, v1) (List.mem_cons_self _ _)
    | false =>
      simp only [hk] at h
      exact ih (fun q hq => hall q (List.mem_cons_of_mem _ hq)) k v h

theorem mem_initialCells (cfg : AxisConfig) (p : String × CellData) :
    p ∈ initialCells cfg ↔
      ∃ x, x < cfg.x ∧ ∃ y, y < cfg.y ∧ ∃ z, z < cfg.z ∧
        p = (cellId x y z, initCellData x y z) := by
  rw [initialCells]
  simp only [List.mem_flatMap, List.mem_map, List.mem_range]
  constructor
  · rintro ⟨z, hz, y, hy, x, hx, rfl⟩
    exact ⟨x, hx, y, hy, z, hz, rfl⟩
  · rintro ⟨x, hx, y, hy, z, hz, rfl⟩
    exact ⟨z, hz, y, hy, x, hx, rfl⟩

theorem initialGrid_status (cfg : AxisConfig) (k : String) (c : CellData)
    (h : initialGrid cfg k = some c) : c.status = Status.idle := by
  refine lookup_prop (fun v => v.status = Status.idle) (initialCells cfg) ?_ k c h
  intro p hp
  rcases (mem_initialCells cfg p).mp hp with ⟨x, _, y, _, z, _, rfl⟩
  rfl

/-! ## Support lemmas: substrings -/

theorem startsWithSeq_iff :
    ∀ (p l : List Char), startsWithSeq p l = true ↔ ∃ t, l = p ++ t := by
  intro p
  induction p with
  | nil => intro l; simp [startsWithSeq]
  | cons a p ih =>
    intro l
    cases l with
    | nil => simp [startsWithSeq]
    | cons b l' =>
      rw [startsWithSeq, Bool.and_eq_true, beq_iff_eq, ih]
      constructor
      · rintro ⟨rfl, t, rfl⟩
        exact ⟨t, rfl⟩
      · rintro ⟨t, ht⟩
        rw [List.cons_append] at ht
        cases ht
        exact ⟨rfl, t, rfl⟩

theorem occursInSeq_iff (p : List Char) :
    ∀ l : List Char, occursInSeq p l = true ↔ ∃ l₁ l₂, l = l₁ ++ p ++ l₂ := by
  intro l
  induction l with
  | nil =>
    rw [occursInSeq, List.isEmpty_iff]
    constructor
    · rintro rfl
      exact ⟨[], [], rfl⟩
    · rintro ⟨l₁, l₂, h⟩
      rcases List.append_eq_nil.mp (List.append_eq_nil.mp h.symm).1 with ⟨_, h2⟩
      exact h2
  | cons b t ih =>
    rw [occursInSeq, Bool.or_eq_true, startsWithSeq_iff, ih]
    constructor
    · rintro (⟨r, hr⟩ | ⟨l₁, l₂, rfl⟩)
      · exact ⟨[], r, by simpa using hr⟩
      · exact ⟨b :: l₁, l₂, rfl⟩
    · rintro ⟨l₁, l₂, h⟩
      cases l₁ with
      | nil =>
        refine Or.inl ⟨l₂, ?_⟩
        simpa using h
      | cons c l₁' =>
        rw [List.cons_append, List.cons_append] at h
        cases h
        exact Or.inr ⟨l₁', l₂, rfl⟩

theorem isSubstring_iff_occursInSeq (p s : String) :
    IsSubstring p s ↔ occursInSeq p.data s.data = true := by
  rw [occursInSeq_iff]
  constructor
  · rintro ⟨l, r, rfl⟩
    exact ⟨l.data, r.data, by simp [String.data_append]⟩
  · rintro ⟨d₁, d₂, h⟩
    refine ⟨String.mk d₁, String.mk d₂, String.ext ?_⟩
    simp [String.data_append, h]

theorem isSubstring_of_split (p l r s : String) (h : s = l ++ p ++ r) :
    IsSubstring p s := ⟨l, r, h⟩

/-! ## Support lemmas: the coordinate mapper -/

theorem jsRound_natCast_div (a b : Nat) (hb : 0 < b) :
    jsRound ((a : ℚ) / (b : ℚ)) = (((2 * a + b) / (2 * b) : Nat) : ℤ) := by
  have hbq : ((b : ℚ)) ≠ 0 := Nat.cast_ne_zero.mpr hb.ne'
  have harg : (a : ℚ) / (b : ℚ) + 1 / 2 = ((2 * a + b : Nat) : ℚ) / ((2 * b : Nat) : ℚ) := by
    push_cast
    field_simp
    ring
  rw [jsRound, harg]
  have hnn : (0 : ℚ) ≤ ((2 * a + b : Nat) : ℚ) / ((2 * b : Nat) : ℚ) :=
    div_nonneg (Nat.cast_nonneg _) (Nat.cast_nonneg _)
  rw [← Int.natCast_floor_eq_floor hnn, Nat.floor_div_eq_div]

theorem mapIndexToLevel_eq_rescale (i t L : Nat) (ht : 2 ≤ t) (hL : 1 ≤ L) :
    mapIndexToLevel i t L = (roundNearestRescale i t L : ℤ) := by
  have htn : ¬ t ≤ 1 := by omega
  have ht1 : (1 : Nat) ≤ t := by omega
  rw [mapIndexToLevel, if_neg htn]
  have hnum : (i : ℚ) * ((L : ℚ) - 1) = ((i * (L - 1) : Nat) : ℚ) := by
    push_cast [Nat.cast_sub hL]
    ring
  have hden : ((t : ℚ) - 1) = ((t - 1 : Nat) : ℚ) := by
    push_cast [Nat.cast_sub ht1]
    ring
  rw [hnum, hden, jsRound_natCast_div _ _ (by omega)]
  rfl

theorem mapIndexToDataLevel_eq_general (i t : Nat) :
    mapIndexToDataLevel i t = mapIndexToLevel i t SOURCE_LEVELS := rfl

theorem mapLevelIdx_eq (i t : Nat) :
    mapIndexToDataLevel i t = (mapLevelIdx i t : ℤ) := by
  by_cases h : t ≤ 1
  · rw [mapIndexToDataLevel, if_pos h, mapLevelIdx, if_pos h]
    rfl
  · rw [mapIndexToDataLevel_eq_general, mapLevelIdx, if_neg h,
      mapIndexToLevel_eq_rescale i t SOURCE_LEVELS (by omega) (by norm_num [SOURCE_LEVELS])]

theorem roundNearestRescale_le (i t L : Nat) (ht : 2 ≤ t) (hL : 1 ≤ L)
    (hi : i < t) : roundNearestRescale i t L ≤ L - 1 := by
  rw [roundNearestRescale]
  have hb : 0 < 2 * (t - 1) := by omega
  rw [← Nat.lt_iff_le_pred hL, Nat.div_lt_iff_lt_mul hb]
  have hi' : i ≤ t - 1 := by omega
  have h1 : 2 * (i * (L - 1)) + (t - 1) ≤ 2 * ((t - 1) * (L - 1)) + (t - 1) := by
    have := Nat.mul_le_mul_right (L - 1) hi'
    omega
  have h2 : 2 * ((t - 1) * (L - 1)) + (t - 1) < L * (2 * (t - 1)) := by
    rcases Nat.exists_eq_add_of_le hL with ⟨M, rfl⟩
    rcases Nat.exists_eq_add_of_le ht with ⟨d, rfl⟩
    have e1 : 1 + M - 1 = M := by omega
    have e2 : 2 + d - 1 = 1 + d := by omega
    rw [e1, e2]
    ring_nf
    nlinarith [Nat.zero_le (M * d)]
  omega

theorem roundNearestRescale_mono (i j t L : Nat) (hij : i ≤ j) :
    roundNearestRescale i t L ≤ roundNearestRescale j t L := by
  rw [roundNearestRescale, roundNearestRescale]
  exact Nat.div_le_div_right (by
    have := Nat.mul_le_mul_right (L - 1) hij
    omega)

/-! ## Support lemmas: cell identity keys -/

theorem toString_digit : ∀ n, n < 10 → (toString n).data = [Nat.digitChar n] := by
  decide

theorem digitChar_inj :
    ∀ a, a < 10 → ∀ b, b < 10 → Nat.digitChar a = Nat.digitChar b → a = b := by
  decide

theorem cellId_data (x y z : Nat) (hx : x < 10) (hy : y < 10) (hz : z < 10) :
    (cellId x y z).data =
      [Nat.digitChar x, '-', Nat.digitChar y, '-', Nat.digitChar z] := by
  have hdash : ("-" : String).data = ['-'] := rfl
  rw [cellId]
  simp [String.data_append, toString_digit x hx, toString_digit y hy,
    toString_digit z hz, hdash]

theorem cellId_inj {x y z x' y' z' : Nat}
    (hx : x < 10) (hy : y < 10) (hz : z < 10)
    (hx' : x' < 10) (hy' : y' < 10) (hz' : z' < 10)
    (h : cellId x y z = cellId x' y' z') : x = x' ∧ y = y' ∧ z = z' := by
  have hd := congrArg String.data h
  rw [cellId_data x y z hx hy hz, cellId_data x' y' z' hx' hy' hz'] at hd
  injection hd with h1 hd
  injection hd with _ hd
  injection hd with h2 hd
  injection hd with _ hd
  injection hd with h3 _
  exact ⟨digitChar_inj x hx x' hx' h1, digitChar_inj y hy y' hy' h2,
    digitChar_inj z hz z' hz' h3⟩

theorem initialCells_keys (cfg : AxisConfig) :
    (initialCells cfg).map Prod.fst =
      (List.range cfg.z).flatMap fun z =>
        (List.range cfg.y).flatMap fun y =>
          (List.range cfg.x).map fun x => cellId x y z := by
  rw [initialCells]
  simp only [List.map_flatMap, List.map_map]
  rfl

theorem initialCells_keys_nodup (cfg : AxisConfig)
    (hx : cfg.x ≤ 10) (hy : cfg.y ≤ 10) (hz : cfg.z ≤ 10) :
    ((initialCells cfg).map Prod.fst).Nodup := by
  rw [initialCells_keys, List.nodup_flatMap]
  constructor
  · intro z hzr
    have hzb : z < 10 := lt_of_lt_of_le (List.mem_range.mp hzr) hz
    rw [List.nodup_flatMap]
    constructor
    · intro y hyr
      have hyb : y < 10 := lt_of_lt_of_le (List.mem_range.mp hyr) hy
      refine List.Nodup.map_on ?_ (List.nodup_range _)
      intro x1 hx1 x2 hx2 heq
      have hb1 : x1 < 10 := lt_of_lt_of_le (List.mem_range.mp hx1) hx
      have hb2 : x2 < 10 := lt_of_lt_of_le (List.mem_range.mp hx2) hx
      exact (cellId_inj hb1 hyb hzb hb2 hyb hzb heq).1
    · refine (List.pairwise_lt_range _).imp_of_mem ?_
      intro y1 y2 hy1 hy2 hlt a ha1 ha2
      have hb1 : y1 < 10 := lt_of_lt_of_le (List.mem_range.mp hy1) hy
      have hb2 : y2 < 10 := lt_of_lt_of_le (List.mem_range.mp hy2) hy
      rcases List.mem_map.mp ha1 with ⟨x1, hx1, rfl⟩
      rcases List.mem_map.mp ha2 with ⟨x2, hx2, heq⟩
      have hbx1 : x1 < 10 := lt_of_lt_of_le (List.mem_range.mp hx1) hx
      have hbx2 : x2 < 10 := lt_of_lt_of_le (List.mem_range.mp hx2) hx
      exact absurd ((cellId_inj hbx2 hb2 hzb hbx1 hb1 hzb heq).2.1 ▸ hlt)
        (lt_irrefl y2)
  · refine (List.pairwise_lt_range _).imp_of_mem ?_
    intro z1 z2 hz1 hz2 hlt a ha1 ha2
    have hb1 : z1 < 10 := lt_of_lt_of_le (List.mem_range.mp hz1) hz
    have hb2 : z2 < 10 := lt_of_lt_of_le (List.mem_range.mp hz2) hz
    rcases List.mem_flatMap.mp ha1 with ⟨y1, hy1, hm1⟩
    rcases List.mem_flatMap.mp ha2 with ⟨y2, hy2, hm2⟩
    rcases List.mem_map.mp hm1 with ⟨x1, hx1, rfl⟩
    rcases List.mem_map.mp hm2 with ⟨x2, hx2, heq⟩
    have hby1 : y1 < 10 := lt_of_lt_of_le (List.mem_range.mp hy1) hy
    have hby2 : y2 < 10 := lt_of_lt_of_le (List.mem_range.mp hy2) hy
    have hbx1 : x1 < 10 := lt_of_lt_of_le (List.mem_range.mp hx1) hx
    have hbx2 : x2 < 10 := lt_of_lt_of_le (List.mem_range.mp hx2) hx
    exact absurd ((cellId_inj hbx2 hby2 hb2 hbx1 hby1 hb1 heq).2.2 ▸ hlt)
      (lt_irrefl z2)

theorem length_flatMap_const {α β : Type} (n : Nat) :
    ∀ (l : List α) (f : α → List β), (∀ a ∈ l, (f a).length = n) →
      (l.flatMap f).length = l.length * n := by
  intro l
  induction l with
  | nil => intro f _; simp
  | cons a t ih =>
    intro f h
    rw [List.flatMap_cons, List.length_append, h a (List.mem_cons_self _ _),
      ih f (fun b hb => h b (List.mem_cons_of_mem _ hb)), List.length_cons]
    ring

theorem initialCells_length (cfg : AxisConfig) :
    (initialCells cfg).length = cfg.x * cfg.y * cfg.z := by
  rw [initialCells, length_flatMap_const (cfg.y * cfg.x), List.length_range]
  · ring
  · intro z _
    rw [length_flatMap_const cfg.x, List.length_range]
    intro y _
    rw [List.length_map, List.length_range]

/-! ## Support lemmas: write-back status and initial invariant -/

theorem writeSuccess_status (id imageUrl promptText characterDesc : String)
    (g : GridMatrix) (c : CellData)
    (h : writeSuccess id imageUrl promptText characterDesc g id = some c) :
    c.status = Status.success := by
  rw [writeSuccess, if_pos rfl] at h
  have h2 := Option.some.inj h
  cases hgi : g id with
  | none =>
    rw [hgi] at h2
    rw [← h2]
  | some c0 =>
    rw [hgi] at h2
    rw [← h2]

theorem writeError_status (id : String) (g : GridMatrix) (c : CellData)
    (h : writeError id g id = some c) : c.status = Status.error := by
  rw [writeError, if_pos rfl] at h
  have h2 := Option.some.inj h
  cases hgi : g id with
  | none =>
    rw [hgi] at h2
    rw [← h2]
  | some c0 =>
    rw [hgi] at h2
    rw [← h2]

theorem empty_append_str (s : String) : "" ++ s = s := by
  apply String.ext
  rw [String.data_append]
  rfl

theorem queuedInQueue_initial (cfg : AxisConfig) :
    QueuedInQueue (initialState cfg) := by
  intro id c hc hst
  have h1 := initialGrid_status cfg id c hc
  rw [h1] at hst
  exact absurd hst (by decide)

/-! ## Claim C6 -/

/-- C6: for all totalSteps ≥ 2 and all indices i ≤ j < totalSteps, the
coordinate mapper is monotonically non-decreasing in the index and its output
always lies in the interval [0, levelCount - 1]. -/
theorem c6_mapIndexToLevel_monotone_and_range (i j t L : Nat)
    (ht : 2 ≤ t) (hL : 1 ≤ L) (hij : i ≤ j) (hj : j < t) :
    mapIndexToLevel i t L ≤ mapIndexToLevel j t L
    ∧ 0 ≤ mapIndexToLevel i t L
    ∧ mapIndexToLevel i t L ≤ (L : ℤ) - 1 := by
  rw [mapIndexToLevel_eq_rescale i t L ht hL, mapIndexToLevel_eq_rescale j t L ht hL]
  refine ⟨?_, ?_, ?_⟩
  · exact_mod_cast roundNearestRescale_mono i j t L hij
  · exact Int.natCast_nonneg _
  · have h := roundNearestRescale_le i t L ht hL (lt_of_le_of_lt hij hj)
    omega

/-- Witness for C6 at i = 1, j = 2, totalSteps = 3, levelCount = 5. -/
theorem c6_witness :
    (2 ≤ 3 ∧ 1 ≤ 5 ∧ 1 ≤ 2 ∧ 2 < 3)
    ∧ (mapIndexToLevel 1 3 5 ≤ mapIndexToLevel 2 3 5
       ∧ 0 ≤ mapIndexToLevel 1 3 5
       ∧ mapIndexToLevel 1 3 5 ≤ (5 : ℤ) - 1) :=
  ⟨by norm_num,
   c6_mapIndexToLevel_monotone_and_range 1 2 3 5 (by norm_num) (by norm_num)
     (by norm_num) (by norm_num)⟩

/-! ## Claim C7 -/

/-- C7: the mapper returns level 0 whenever totalSteps ≤ 1, for any index and
any level count; for totalSteps ≥ 2 it equals the round-to-nearest linear
rescale of the index from [0, totalSteps - 1] onto [0, levelCount - 1]; and
the source instance fixes levelCount to SOURCE_LEVELS. -/
theorem c7_mapIndexToLevel_formula :
    (∀ i t L, t ≤ 1 → mapIndexToLevel i t L = 0)
    ∧ (∀ i t L, 2 ≤ t → 1 ≤ L →
        mapIndexToLevel i t L = (roundNearestRescale i t L : ℤ))
    ∧ ∀ i t, mapIndexToDataLevel i t = mapIndexToLevel i t SOURCE_LEVELS := by
  refine ⟨?_, ?_, ?_⟩
  · intro i t L h
    rw [mapIndexToLevel, if_pos h]
  · intro i t L ht hL
    exact mapIndexToLevel_eq_rescale i t L ht hL
  · intro i t
    rfl

/-- Witness for C7: the degenerate case at (7, 1, 9) and the rescale case at
(3, 4, 5). -/
theorem c7_witness :
    (1 ≤ 1 ∧ mapIndexToLevel 7 1 9 = 0)
    ∧ (2 ≤ 4 ∧ 1 ≤ 5
       ∧ mapIndexToLevel 3 4 5 = (roundNearestRescale 3 4 5 : ℤ)) :=
  ⟨⟨le_refl 1, c7_mapIndexToLevel_formula.1 7 1 9 (le_refl 1)⟩,
   ⟨by norm_num, by norm_num,
    c7_mapIndexToLevel_formula.2.1 3 4 5 (by norm_num) (by norm_num)⟩⟩

/-! ## Claim C8 -/

/-- C8: for every axis configuration (the reference bounds each step count by
5; the proof covers all bounds up to 10, the single-digit range that keeps
the x-y-z encoding injective), the rebuild enumeration produces exactly
stepsX * stepsY * stepsZ cells, no two cells share an identity key, every
cell's coordinate components are in range, every status is idle, and every
request text is empty. -/
theorem c8_rebuild_grid (cfg : AxisConfig)
    (hx : cfg.x ≤ 10) (hy : cfg.y ≤ 10) (hz : cfg.z ≤ 10) :
    (initialCells cfg).length = cfg.x * cfg.y * cfg.z
    ∧ ((initialCells cfg).map Prod.fst).Nodup
    ∧ ∀ p ∈ initialCells cfg, ∃ x y z,
        x < cfg.x ∧ y < cfg.y ∧ z < cfg.z ∧ p.1 = cellId x y z
        ∧ p.2.coord = some ⟨x, y, z⟩ ∧ p.2.status = Status.idle
        ∧ p.2.prompt = some "" ∧ p.2.imageUrl = none := by
  refine ⟨initialCells_length cfg, initialCells_keys_nodup cfg hx hy hz, ?_⟩
  intro p hp
  rcases (mem_initialCells cfg p).mp hp with ⟨x, hxx, y, hyy, z, hzz, rfl⟩
  exact ⟨x, y, z, hxx, hyy, hzz, rfl, rfl, rfl, rfl, rfl⟩

/-- Witness for C8 at the spec's example configuration (2, 3, 4). -/
theorem c8_witness :
    (2 ≤ 10 ∧ 3 ≤ 10 ∧ 4 ≤ 10)
    ∧ ((initialCells ⟨2, 3, 4⟩).length = 2 * 3 * 4
       ∧ ((initialCells ⟨2, 3, 4⟩).map Prod.fst).Nodup
       ∧ ∀ p ∈ initialCells ⟨2, 3, 4⟩, ∃ x y z,
           x < 2 ∧ y < 3 ∧ z < 4 ∧ p.1 = cellId x y z
           ∧ p.2.coord = some ⟨x, y, z⟩ ∧ p.2.status = Status.idle
           ∧ p.2.prompt = some "" ∧ p.2.imageUrl = none) :=
  ⟨by norm_num,
   c8_rebuild_grid ⟨2, 3, 4⟩ (by norm_num) (by norm_num) (by norm_num)⟩

/-! ## Claim C9 -/

/-- C9: after stop the queue is empty, every queued cell becomes idle, a
loading cell is untouched, and the in-flight success write-back still lands
on the loading cell afterwards. -/
theorem c9_stop_behaviour (s : AppState)
    (qid lid imageUrl promptText characterDesc : String) (cq cl : CellData)
    (hq : s.gridData qid = some cq) (hqs : cq.status = Status.queued)
    (hl : s.gridData lid = some cl) (hls : cl.status = Status.loading) :
    (handleStop s).queue = []
    ∧ (handleStop s).gridData qid = some { cq with status := Status.idle }
    ∧ (handleStop s).gridData lid = some cl
    ∧ writeSuccess lid imageUrl promptText characterDesc (handleStop s).gridData lid =
        some { cl with
          imageUrl := some imageUrl
          prompt := some promptText
          characterDescription := some characterDesc
          status := Status.success } := by
  have hstopl : (handleStop s).gridData lid = some cl := by
    rw [handleStop_gridData, hl]
    simp [hls]
  refine ⟨rfl, ?_, hstopl, ?_⟩
  · rw [handleStop_gridData, hq]
    simp [hqs]
  · exact writeSuccess_apply_self lid imageUrl promptText characterDesc _ cl hstopl

/-- Witness for C9: stop on the state where cell 0-0-0 is loading and cell
1-0-0 is queued. -/
theorem c9_witness :
    (c9State.gridData (cellId 1 0 0) =
        some { initCellData 1 0 0 with status := Status.queued }
     ∧ c9State.gridData (cellId 0 0 0) =
        some { initCellData 0 0 0 with status := Status.loading })
    ∧ ((handleStop c9State).queue = []
       ∧ (handleStop c9State).gridData (cellId 1 0 0) =
          some { { initCellData 1 0 0 with status := Status.queued } with
            status := Status.idle }
       ∧ (handleStop c9State).gridData (cellId 0 0 0) =
          some { initCellData 0 0 0 with status := Status.loading }
       ∧ writeSuccess (cellId 0 0 0) "img" "p" "d" (handleStop c9State).gridData
            (cellId 0 0 0) =
          some { { initCellData 0 0 0 with status := Status.loading } with
            imageUrl := some "img"
            prompt := some "p"
            characterDescription := some "d"
            status := Status.success }) :=
  ⟨⟨by decide, by decide⟩,
   c9_stop_behaviour c9State (cellId 1 0 0) (cellId 0 0 0) "img" "p" "d"
     { initCellData 1 0 0 with status := Status.queued }
     { initCellData 0 0 0 with status := Status.loading }
     (by decide) rfl (by decide) rfl⟩

/-! ## Claim C10 -/

/-- C10: stop modifies only the status field of queued cells; every cell in
any other status is completely unchanged, missing keys stay missing, and no
cell's artifact reference or stored request text is cleared. -/
theorem c10_stop_frame (s : AppState) (id : String) (c : CellData)
    (hc : s.gridData id = some c) :
    (c.status ≠ Status.queued → (handleStop s).gridData id = some c)
    ∧ (c.status = Status.queued →
        (handleStop s).gridData id =
          some { coord := c.coord
                 imageUrl := c.imageUrl
                 prompt := c.prompt
                 characterDescription := c.characterDescription
                 status := Status.idle })
    ∧ ∀ k, s.gridData k = none → (handleStop s).gridData k = none := by
  refine ⟨?_, ?_, ?_⟩
  · intro h
    rw [handleStop_gridData, hc]
    simp [h]
  · intro h
    rw [handleStop_gridData, hc]
    simp [h]
  · intro k hk
    rw [handleStop_gridData, hk]
    rfl

/-- Witness for C10 at the queued cell 1-0-0 of the mixed state. -/
theorem c10_witness :
    (c9State.gridData (cellId 1 0 0) =
        some { initCellData 1 0 0 with status := Status.queued })
    ∧ (({ initCellData 1 0 0 with status := Status.queued } : CellData).status ≠
          Status.queued →
        (handleStop c9State).gridData (cellId 1 0 0) =
          some { initCellData 1 0 0 with status := Status.queued })
    ∧ (({ initCellData 1 0 0 with status := Status.queued } : CellData).status =
          Status.queued →
        (handleStop c9State).gridData (cellId 1 0 0) =
          some { coord := ({ initCellData 1 0 0 with status := Status.queued } : CellData).coord
                 imageUrl := ({ initCellData 1 0 0 with status := Status.queued } : CellData).imageUrl
                 prompt := ({ initCellData 1 0 0 with status := Status.queued } : CellData).prompt
                 characterDescription := ({ initCellData 1 0 0 with status := Status.queued } : CellData).characterDescription
                 status := Status.idle })
    ∧ ∀ k, c9State.gridData k = none → (handleStop c9State).gridData k = none :=
  have h := c10_stop_frame c9State (cellId 1 0 0)
    { initCellData 1 0 0 with status := Status.queued } (by decide)
  ⟨by decide, h.1, h.2.1, h.2.2⟩

/-! ## Claim C3 -/

/-- C3 counterexample: after resetAll, the stored request text of cell 0-0-0
is still the nonempty prompt that was written by the success write-back; the
source clears only the artifact reference, not the request text. -/
theorem c3_counterexample :
    (handleReset c3State).gridData (cellId 0 0 0) =
      some { coord := some ⟨0, 0, 0⟩
             imageUrl := none
             prompt := some "A stored prompt"
             characterDescription := some "d"
             status := Status.idle }
    ∧ "A stored prompt" ≠ "" :=
  ⟨by decide, by decide⟩

/-- C3 (amended): after resetAll the queue is empty, the processing flag is
cleared, every cell's status is idle and its artifact reference is cleared,
cell count and coordinates are unchanged, but the stored request text (and
the generated descriptor) are retained, not cleared. -/
theorem c3_reset_behaviour (s : AppState) :
    (handleReset s).queue = []
    ∧ (handleReset s).processing = false
    ∧ (∀ id, s.gridData id = none → (handleReset s).gridData id = none)
    ∧ ∀ id c, s.gridData id = some c →
        (handleReset s).gridData id =
          some { coord := c.coord
                 imageUrl := none
                 prompt := c.prompt
                 characterDescription := c.characterDescription
                 status := Status.idle } := by
  refine ⟨rfl, rfl, ?_, ?_⟩
  · intro id h
    rw [handleReset_gridData, h]
    rfl
  · intro id c h
    rw [handleReset_gridData, h]
    rfl

/-- Witness for C3 on the state holding one stored result: after resetAll
the cell is idle with its artifact cleared but its request text retained. -/
theorem c3_witness :
    c3State.gridData (cellId 0 0 0) =
      some { coord := some ⟨0, 0, 0⟩
             imageUrl := some "img"
             prompt := some "A stored prompt"
             characterDescription := some "d"
             status := Status.success }
    ∧ (handleReset c3State).queue = []
    ∧ (handleReset c3State).processing = false
    ∧ (handleReset c3State).gridData (cellId 0 0 0) =
        some { coord := some ⟨0, 0, 0⟩
               imageUrl := none
               prompt := some "A stored prompt"
               characterDescription := some "d"
               status := Status.idle } :=
  ⟨by decide, (c3_reset_behaviour c3State).1, (c3_reset_behaviour c3State).2.1,
   (c3_reset_behaviour c3State).2.2.2 (cellId 0 0 0)
     { coord := some ⟨0, 0, 0⟩
       imageUrl := some "img"
       prompt := some "A stored prompt"
       characterDescription := some "d"
       status := Status.success } (by decide)⟩

/-! ## Claim C2 -/

/-- C2 counterexample: the success and error write-backs are unguarded; a
result targeting id 9-9-9, which does not exist in the 2x2x2 grid, creates a
new entry under that key instead of being dropped, so the key set is not
preserved. -/
theorem c2_counterexample :
    (freshState.gridData "9-9-9").isSome = false
    ∧ ((writeSuccess "9-9-9" "img" "p" "d" freshState.gridData) "9-9-9").isSome = true
    ∧ ((writeError "9-9-9" freshState.gridData) "9-9-9").isSome = true :=
  ⟨by decide, by decide, by decide⟩

/-- C2 (amended): enqueue, mark-loading and stop preserve the grid's key set
unconditionally; the success and error write-backs preserve it when the
target id still exists in the current grid, but they write unconditionally,
so a write-back at a missing id creates an entry. -/
theorem c2_key_preservation (s : AppState) (ids : List String)
    (id imageUrl promptText characterDesc : String) :
    (∀ k, ((addToQueue ids s).gridData k).isSome = (s.gridData k).isSome)
    ∧ (∀ k, ((dequeueMarkLoading s).gridData k).isSome = (s.gridData k).isSome)
    ∧ (∀ k, ((handleStop s).gridData k).isSome = (s.gridData k).isSome)
    ∧ ((s.gridData id).isSome = true →
        (∀ k, ((writeSuccess id imageUrl promptText characterDesc s.gridData) k).isSome =
          (s.gridData k).isSome)
        ∧ ∀ k, ((writeError id s.gridData) k).isSome = (s.gridData k).isSome) := by
  refine ⟨?_, ?_, ?_, ?_⟩
  · intro k
    rw [addToQueue_gridData]
    by_cases h : k ∈ ids
    · rw [if_pos h]
      cases hg : s.gridData k <;> rfl
    · rw [if_neg h]
  · intro k
    rw [dequeueMarkLoading_gridData]
    by_cases h : k ∈ s.queue.take 1
    · rw [if_pos h]
      cases hg : s.gridData k <;> rfl
    · rw [if_neg h]
  · intro k
    rw [handleStop_gridData]
    cases hg : s.gridData k <;> rfl
  · intro h
    constructor
    · intro k
      by_cases hk : k = id
      · subst hk
        rw [writeSuccess, if_pos rfl, h]
        rfl
      · rw [writeSuccess_apply_ne id imageUrl promptText characterDesc k s.gridData hk]
    · intro k
      by_cases hk : k = id
      · subst hk
        rw [writeError, if_pos rfl, h]
        rfl
      · rw [writeError_apply_ne id k s.gridData hk]

/-- Witness for C2 on the fresh 2x2x2 grid at the existing id 0-0-0. -/
theorem c2_witness :
    ((freshState.gridData (cellId 0 0 0)).isSome = true)
    ∧ ((∀ k, ((addToQueue [cellId 0 0 0] freshState).gridData k).isSome =
          (freshState.gridData k).isSome)
       ∧ (∀ k, ((dequeueMarkLoading freshState).gridData k).isSome =
          (freshState.gridData k).isSome)
       ∧ (∀ k, ((handleStop freshState).gridData k).isSome =
          (freshState.gridData k).isSome)
       ∧ ((freshState.gridData (cellId 0 0 0)).isSome = true →
          (∀ k, ((writeSuccess (cellId 0 0 0) "img" "p" "d" freshState.gridData) k).isSome =
            (freshState.gridData k).isSome)
          ∧ ∀ k, ((writeError (cellId 0 0 0) freshState.gridData) k).isSome =
            (freshState.gridData k).isSome)) :=
  ⟨by decide,
   c2_key_preservation freshState [cellId 0 0 0] (cellId 0 0 0) "img" "p" "d"⟩

/-! ## Claim C4 -/

/-- C4 counterexample: the classifier treats this failure as rate-limit
exhaustion (the long cooldown of 30000 ms is selected), yet its serialized
form contains no 429 marker; the 429 appears only in the non-enumerable
message field, which JSON.stringify does not include. The claim's "if and
only if the serialized form contains a 429 marker" is therefore false. -/
theorem c4_counterexample :
    isRateLimit rateLimitMessageError = true
    ∧ jsIncludes rateLimitMessageError.serialized "429" = false
    ∧ (processBatchCell ⟨2, 2, 2⟩ "A red robot" failCharGen failImageGen
        freshState (cellId 0 0 0)).2 = 30000 :=
  ⟨by decide, by decide, by decide⟩

/-- C4 (amended): when a cell's generation attempt fails, the drain-loop step
writes status error for the cell, classifies the failure as rate-limit if the
serialized error, its status field (equal to 429) or its message contains a
429 marker, and selects a 30000 ms cooldown when rate-limited and a 1000 ms
delay otherwise; the step is a total function, so the failure is absorbed and
never escapes the loop. -/
theorem c4_failure_handling (cfg : AxisConfig) (subject : String)
    (charGen : String → String → String → Except JsError String)
    (imageGen : String → Except JsError String)
    (s : AppState) (id : String) (c : CellData) (coord : Coordinate) (e : JsError)
    (hc : s.gridData id = some c) (hco : c.coord = some coord)
    (hfail : runAttempt cfg subject coord charGen imageGen = AttemptResult.failed e) :
    processBatchCell cfg subject charGen imageGen s id =
      ({ s with gridData := writeError id s.gridData },
       if isRateLimit e then 30000 else 1000)
    ∧ writeError id s.gridData id = some { c with status := Status.error }
    ∧ (isRateLimit e = true ↔
        (jsIncludes e.serialized "429" = true ∨ e.status = some 429 ∨
          ∃ m, e.message = some m ∧ jsIncludes m "429" = true)) := by
  refine ⟨?_, writeError_apply_self id s.gridData c hc, ?_⟩
  · simp only [processBatchCell, hc, hco, hfail]
  · obtain ⟨ser, st, msg⟩ := e
    cases msg with
    | none => simp [isRateLimit, beq_iff_eq]
    | some m => simp [isRateLimit, beq_iff_eq, or_assoc]

/-! ## Claim C1 -/

/-- C1 counterexample: the claimed queue-status equivalence fails on a
reachable state. After cell 0-0-0 completes successfully and the drain loop
goes idle, a bulk enqueue of that cell's id places the id back in the queue
while the cell's status remains success — in particular, enqueue of a cell
currently success does place its id in the pending queue. The violating
state is quiescent: no dequeue is pending, so the claim's dequeue window
exception does not apply. -/
theorem c1_counterexample :
    ¬ (∀ s, Reachable s → ∀ id c, s.gridData id = some c →
        (id ∈ s.queue ↔ c.status = Status.queued)) := by
  intro hclaim
  have h0 : Reachable freshState := Reachable.init ⟨2, 2, 2⟩
  have h1 : Reachable (addToQueue [cellId 0 0 0] freshState) :=
    h0.step (Step.enqueue _ _)
  have h2 : Reachable (dequeueMarkLoading (addToQueue [cellId 0 0 0] freshState)) :=
    h1.step (Step.dequeue _ rfl (by decide))
  have h3 := h2.step (Step.success _ (cellId 0 0 0) "data:img" "p" "d")
  have h4 := h3.step (Step.finish _)
  have h5 : Reachable c1State := h4.step (Step.enqueue _ [cellId 0 0 0])
  have hmem : cellId 0 0 0 ∈ c1State.queue := by decide
  have hcell : c1State.gridData (cellId 0 0 0) =
      some { coord := some ⟨0, 0, 0⟩
             imageUrl := some "data:img"
             prompt := some "p"
             characterDescription := some "d"
             status := Status.success } := by decide
  have := (hclaim c1State h5 (cellId 0 0 0) _ hcell).mp hmem
  exact absurd this (by decide)

/-- C1 (amended): in every reachable state, a cell whose status is queued has
its key in the pending queue. The converse direction of the claimed
equivalence is false (see the counterexample): enqueue appends every
requested id to the queue, including ids of cells currently success or
loading, whose status it leaves unchanged. -/
theorem c1_queued_implies_in_queue (s : AppState) (h : Reachable s) :
    QueuedInQueue s := by
  induction h with
  | init cfg => exact queuedInQueue_initial cfg
  | step hR hS ih =>
    rename_i s1 s2
    cases hS with
    | rebuild cfg => exact queuedInQueue_initial cfg
    | enqueue ids =>
      intro id c hc hst
      rw [addToQueue_gridData] at hc
      rw [addToQueue_queue]
      by_cases hid : id ∈ ids
      · exact Or.inr hid
      · rw [if_neg hid] at hc
        exact Or.inl (ih id c hc hst)
    | dequeue hp hq =>
      intro id c hc hst
      rw [dequeueMarkLoading_gridData] at hc
      by_cases hid : id ∈ s1.queue.take 1
      · rw [if_pos hid] at hc
        rcases Option.map_eq_some'.mp hc with ⟨c', _, hmk⟩
        rw [← hmk] at hst
        exact absurd hst (by simp [markLoadingCell])
      · rw [if_neg hid] at hc
        have hmem := ih id c hc hst
        show id ∈ s1.queue.drop 1
        have hsplit : id ∈ s1.queue.take 1 ++ s1.queue.drop 1 := by
          rw [List.take_append_drop]
          exact hmem
        rcases List.mem_append.mp hsplit with h' | h'
        · exact absurd h' hid
        · exact h'
    | success id0 imageUrl promptText characterDesc =>
      intro id c hc hst
      show id ∈ s1.queue
      by_cases hid : id = id0
      · subst hid
        have := writeSuccess_status id imageUrl promptText characterDesc s1.gridData c hc
        rw [this] at hst
        exact absurd hst (by decide)
      · have hc2 : writeSuccess id0 imageUrl promptText characterDesc s1.gridData id = some c := hc
        rw [writeSuccess_apply_ne id0 imageUrl promptText characterDesc id s1.gridData hid] at hc2
        exact ih id c hc2 hst
    | failure id0 =>
      intro id c hc hst
      show id ∈ s1.queue
      by_cases hid : id = id0
      · subst hid
        have := writeError_status id s1.gridData c hc
        rw [this] at hst
        exact absurd hst (by decide)
      · have hc2 : writeError id0 s1.gridData id = some c := hc
        rw [writeError_apply_ne id0 id s1.gridData hid] at hc2
        exact ih id c hc2 hst
    | finish => exact ih
    | stop =>
      intro id c hc hst
      rw [handleStop_gridData] at hc
      rcases Option.map_eq_some'.mp hc with ⟨c', _, hmk⟩
      rw [← hmk] at hst
      by_cases h' : c'.status = Status.queued
      · rw [if_pos h'] at hst
        simp at hst
      · rw [if_neg h'] at hst
        exact absurd hst h'
    | reset =>
      intro id c hc hst
      rw [handleReset_gridData] at hc
      rcases Option.map_eq_some'.mp hc with ⟨c', _, hmk⟩
      rw [← hmk] at hst
      simp at hst

/-- Witness for C1 on the reachable state right after enqueueing cell 0-0-0
onto the fresh grid. -/
theorem c1_witness : QueuedInQueue (addToQueue [cellId 0 0 0] freshState) :=
  c1_queued_implies_in_queue (addToQueue [cellId 0 0 0] freshState)
    ((Reachable.init ⟨2, 2, 2⟩).step (Step.enqueue _ _))

set_option maxRecDepth 100000 in
/-- C5: the descriptor collaborator is consulted exactly when the subject is
empty (after trimming) or equal to the default placeholder; when a
descriptor was synthesized the final request text is the axis-free form
(the level descriptors are not interpolated and the text is independent of
the coordinate, and no fixed level descriptor occurs in the suffix part);
when no synthesis occurred, the stored request text contains the literal
subject and the three mapped level descriptors for the cell's coordinate. -/
theorem c5_descriptor_synthesis (cfg : AxisConfig) (subject : String)
    (s : AppState) (id : String) (c : CellData) (coord : Coordinate)
    (imageGen : String → Except JsError String)
    (hc : s.gridData id = some c) (hco : c.coord = some coord) :
    (shouldSynthesize subject = false →
      ∀ charGen1 charGen2,
        processBatchCell cfg subject charGen1 imageGen s id =
          processBatchCell cfg subject charGen2 imageGen s id)
    ∧ (shouldSynthesize subject = true →
        ∀ charGen desc img,
          charGen (X_AXIS.levels.getD (mapLevelIdx coord.x cfg.x) "")
              (Y_AXIS.levels.getD (mapLevelIdx coord.y cfg.y) "")
              (Z_AXIS.levels.getD (mapLevelIdx coord.z cfg.z) "") = Except.ok desc →
          imageGen (desc ++ ". " ++ PROMPT_SUFFIX) = Except.ok img →
          (processBatchCell cfg subject charGen imageGen s id).1.gridData id =
            some { c with
              imageUrl := some img
              prompt := some (desc ++ ". " ++ PROMPT_SUFFIX)
              characterDescription := some desc
              status := Status.success }
          ∧ ∀ coord2 : Coordinate,
              getPromptForCell cfg coord2 desc false = desc ++ ". " ++ PROMPT_SUFFIX)
    ∧ (shouldSynthesize subject = false →
        ∀ charGen img,
          imageGen (getPromptForCell cfg coord subject true) = Except.ok img →
          (processBatchCell cfg subject charGen imageGen s id).1.gridData id =
            some { c with
              imageUrl := some img
              prompt := some (getPromptForCell cfg coord subject true)
              characterDescription := some subject
              status := Status.success }
          ∧ IsSubstring subject (getPromptForCell cfg coord subject true)
          ∧ IsSubstring (X_AXIS.levels.getD (mapLevelIdx coord.x cfg.x) "")
              (getPromptForCell cfg coord subject true)
          ∧ IsSubstring (Y_AXIS.levels.getD (mapLevelIdx coord.y cfg.y) "")
              (getPromptForCell cfg coord subject true)
          ∧ IsSubstring (Z_AXIS.levels.getD (mapLevelIdx coord.z cfg.z) "")
              (getPromptForCell cfg coord subject true))
    ∧ (shouldSynthesize subject = true ↔
        (jsTrim subject = "" ∨ subject = DEFAULT_SUBJECT))
    ∧ ∀ lvl ∈ X_AXIS.levels ++ Y_AXIS.levels ++ Z_AXIS.levels,
        ¬ IsSubstring lvl (". " ++ PROMPT_SUFFIX) := by
  refine ⟨?_, ?_, ?_, ?_, ?_⟩
  · intro h cg1 cg2
    have he : runAttempt cfg subject coord cg1 imageGen =
        runAttempt cfg subject coord cg2 imageGen := by
      rw [runAttempt, runAttempt]
      simp only [h, Bool.false_eq_true, if_false]
    simp only [processBatchCell, hc, hco, he]
  · intro h cg desc img hcg himg
    have hprompt : ∀ coord2 : Coordinate,
        getPromptForCell cfg coord2 desc false = desc ++ ". " ++ PROMPT_SUFFIX := by
      intro coord2
      rfl
    have hrun : runAttempt cfg subject coord cg imageGen =
        AttemptResult.ok img (getPromptForCell cfg coord desc false) desc true := by
      rw [runAttempt]
      simp only [h, if_true, hcg]
      rw [hprompt coord]
      simp only [himg]
    refine ⟨?_, hprompt⟩
    simp only [processBatchCell, hc, hco, hrun]
    rw [hprompt coord]
    have hws := writeSuccess_apply_self id img (desc ++ ". " ++ PROMPT_SUFFIX) desc
      s.gridData c hc
    rw [hco] at hws
    exact hws
  · intro h cg img himg
    have hrun : runAttempt cfg subject coord cg imageGen =
        AttemptResult.ok img (getPromptForCell cfg coord subject true) subject false := by
      rw [runAttempt]
      simp only [h, Bool.false_eq_true, if_false]
      rw [himg]
    refine ⟨?_, ?_, ?_, ?_, ?_⟩
    · simp only [processBatchCell, hc, hco, hrun]
      have hws := writeSuccess_apply_self id img (getPromptForCell cfg coord subject true)
        subject s.gridData c hc
      rw [hco] at hws
      exact hws
    · refine ⟨"", ". \n    Style: " ++ X_AXIS.levels.getD (mapLevelIdx coord.x cfg.x) "" ++
        ". \n    Pose/Energy: " ++ Y_AXIS.levels.getD (mapLevelIdx coord.y cfg.y) "" ++
        ". \n    Physical details: " ++ Z_AXIS.levels.getD (mapLevelIdx coord.z cfg.z) "" ++
        ". \n    " ++ PROMPT_SUFFIX, ?_⟩
      simp [getPromptForCell, String.append_assoc, empty_append_str]
    · refine ⟨subject ++ ". \n    Style: ",
        ". \n    Pose/Energy: " ++ Y_AXIS.levels.getD (mapLevelIdx coord.y cfg.y) "" ++
        ". \n    Physical details: " ++ Z_AXIS.levels.getD (mapLevelIdx coord.z cfg.z) "" ++
        ". \n    " ++ PROMPT_SUFFIX, ?_⟩
      simp [getPromptForCell, String.append_assoc]
    · refine ⟨subject ++ ". \n    Style: " ++
        X_AXIS.levels.getD (mapLevelIdx coord.x cfg.x) "" ++ ". \n    Pose/Energy: ",
        ". \n    Physical details: " ++ Z_AXIS.levels.getD (mapLevelIdx coord.z cfg.z) "" ++
        ". \n    " ++ PROMPT_SUFFIX, ?_⟩
      simp [getPromptForCell, String.append_assoc]
    · refine ⟨subject ++ ". \n    Style: " ++
        X_AXIS.levels.getD (mapLevelIdx coord.x cfg.x) "" ++ ". \n    Pose/Energy: " ++
        Y_AXIS.levels.getD (mapLevelIdx coord.y cfg.y) "" ++ ". \n    Physical details: ",
        ". \n    " ++ PROMPT_SUFFIX, ?_⟩
      simp [getPromptForCell, String.append_assoc]
  · rw [shouldSynthesize, Bool.or_eq_true, beq_iff_eq, beq_iff_eq]
  · have hdec : ∀ lvl ∈ X_AXIS.levels ++ Y_AXIS.levels ++ Z_AXIS.levels,
        occursInSeq lvl.data (". " ++ PROMPT_SUFFIX).data = false := by decide
    intro lvl hl
    rw [isSubstring_iff_occursInSeq]
    simpa using hdec lvl hl

/-- Witness for C5 with the explicit non-default subject of the spec's
scenario on the fresh grid's cell 0-0-0. -/
theorem c5_witness :
    (freshState.gridData (cellId 0 0 0) = some (initCellData 0 0 0)
     ∧ (initCellData 0 0 0).coord = some ⟨0, 0, 0⟩)
    ∧ ((shouldSynthesize "A red robot" = false →
          ∀ charGen1 charGen2,
            processBatchCell ⟨2, 2, 2⟩ "A red robot" charGen1 okImageGen
                freshState (cellId 0 0 0) =
              processBatchCell ⟨2, 2, 2⟩ "A red robot" charGen2 okImageGen
                freshState (cellId 0 0 0))
       ∧ (shouldSynthesize "A red robot" = true →
            ∀ charGen desc img,
              charGen (X_AXIS.levels.getD (mapLevelIdx 0 2) "")
                  (Y_AXIS.levels.getD (mapLevelIdx 0 2) "")
                  (Z_AXIS.levels.getD (mapLevelIdx 0 2) "") = Except.ok desc →
              okImageGen (desc ++ ". " ++ PROMPT_SUFFIX) = Except.ok img →
              (processBatchCell ⟨2, 2, 2⟩ "A red robot" charGen okImageGen
                  freshState (cellId 0 0 0)).1.gridData (cellId 0 0 0) =
                some { initCellData 0 0 0 with
                  imageUrl := some img
                  prompt := some (desc ++ ". " ++ PROMPT_SUFFIX)
                  characterDescription := some desc
                  status := Status.success }
              ∧ ∀ coord2 : Coordinate,
                  getPromptForCell ⟨2, 2, 2⟩ coord2 desc false =
                    desc ++ ". " ++ PROMPT_SUFFIX)
       ∧ (shouldSynthesize "A red robot" = false →
            ∀ charGen img,
              okImageGen (getPromptForCell ⟨2, 2, 2⟩ ⟨0, 0, 0⟩ "A red robot" true) =
                Except.ok img →
              (processBatchCell ⟨2, 2, 2⟩ "A red robot" charGen okImageGen
                  freshState (cellId 0 0 0)).1.gridData (cellId 0 0 0) =
                some { initCellData 0 0 0 with
                  imageUrl := some img
                  prompt := some (getPromptForCell ⟨2, 2, 2⟩ ⟨0, 0, 0⟩ "A red robot" true)
                  characterDescription := some "A red robot"
                  status := Status.success }
              ∧ IsSubstring "A red robot"
                  (getPromptForCell ⟨2, 2, 2⟩ ⟨0, 0, 0⟩ "A red robot" true)
              ∧ IsSubstring (X_AXIS.levels.getD (mapLevelIdx 0 2) "")
                  (getPromptForCell ⟨2, 2, 2⟩ ⟨0, 0, 0⟩ "A red robot" true)
              ∧ IsSubstring (Y_AXIS.levels.getD (mapLevelIdx 0 2) "")
                  (getPromptForCell ⟨2, 2, 2⟩ ⟨0, 0, 0⟩ "A red robot" true)
              ∧ IsSubstring (Z_AXIS.levels.getD (mapLevelIdx 0 2) "")
                  (getPromptForCell ⟨2, 2, 2⟩ ⟨0, 0, 0⟩ "A red robot" true))
       ∧ (shouldSynthesize "A red robot" = true ↔
            (jsTrim "A red robot" = "" ∨ "A red robot" = DEFAULT_SUBJECT))
       ∧ ∀ lvl ∈ X_AXIS.levels ++ Y_AXIS.levels ++ Z_AXIS.levels,
           ¬ IsSubstring lvl (". " ++ PROMPT_SUFFIX)) :=
  ⟨⟨by decide, rfl⟩,
   c5_descriptor_synthesis ⟨2, 2, 2⟩ "A red robot" freshState (cellId 0 0 0)
     (initCellData 0 0 0) ⟨0, 0, 0⟩ okImageGen (by decide) rfl⟩

/-- Witness for C4: the image collaborator fails with the rate-limited error
on the fresh grid's cell 0-0-0 under an explicit subject. -/
theorem c4_witness :
    (freshState.gridData (cellId 0 0 0) = some (initCellData 0 0 0)
     ∧ (initCellData 0 0 0).coord = some ⟨0, 0, 0⟩
     ∧ runAttempt ⟨2, 2, 2⟩ "A red robot" ⟨0, 0, 0⟩ failCharGen failImageGen =
        AttemptResult.failed rateLimitMessageError)
    ∧ (processBatchCell ⟨2, 2, 2⟩ "A red robot" failCharGen failImageGen
        freshState (cellId 0 0 0) =
          ({ freshState with
              gridData := writeError (cellId 0 0 0) freshState.gridData },
           if isRateLimit rateLimitMessageError then 30000 else 1000)
       ∧ writeError (cellId 0 0 0) freshState.gridData (cellId 0 0 0) =
          some { initCellData 0 0 0 with status := Status.error }
       ∧ (isRateLimit rateLimitMessageError = true ↔
           (jsIncludes rateLimitMessageError.serialized "429" = true
            ∨ rateLimitMessageError.status = some 429
            ∨ ∃ m, rateLimitMessageError.message = some m
                ∧ jsIncludes m "429" = true))) :=
  ⟨⟨by decide, rfl, by decide⟩,
   c4_failure_handling ⟨2, 2, 2⟩ "A red robot" failCharGen failImageGen
     freshState (cellId 0 0 0) (initCellData 0 0 0) ⟨0, 0, 0⟩
     rateLimitMessageError (by decide) rfl (by decide)⟩

end Chara
